import Mathlib

/-!
Shallow embedding of the `absolutetimestamps` GStreamer element
(`src/plugins/gstabsolutetimestamps.c`).

The element state (`GstAbsolutetimestamps`) holds the configured file
location and the optionally open log file.  The open file is modelled as
the list of strings appended to it so far (each append being one line,
newline included).  Environmental outcomes — whether `g_fopen` succeeds,
whether `fclose` succeeds, whether `g_fprintf` succeeds, and the wall-clock
ISO-8601 string produced by `g_time_val_to_iso8601 (g_get_current_time ())`
— are passed in as explicit parameters.  Error reporting via
`GST_ELEMENT_ERROR` is modelled as the list of errors emitted by the call.
-/

namespace AbsoluteTimestamps

/-- `GST_SECOND`: nanoseconds per second. -/
def GST_SECOND : Nat := 1000000000

/-- `GST_CLOCK_TIME_NONE`: the unset sentinel, `(guint64)-1`. -/
def GST_CLOCK_TIME_NONE : Nat := 2 ^ 64 - 1

/-- Modulus of a C `guint` (32-bit), used by the casts in `GST_TIME_ARGS`. -/
def guintMod : Nat := 2 ^ 32

/-- printf `%0<width>u`: decimal representation of `n`, zero-padded on the
left to at least `width` characters. -/
def zeroPad (width : Nat) (n : Nat) : String :=
  let s := Nat.repr n
  String.mk (List.replicate (width - s.length) '0') ++ s

/-- Hours field of `GST_TIME_ARGS (t)` for a valid `t`:
`(guint) (t / (GST_SECOND * 60 * 60))`. -/
def gstTimeHours (t : Nat) : Nat := (t / (GST_SECOND * 60 * 60)) % guintMod

/-- Minutes field of `GST_TIME_ARGS (t)` for a valid `t`:
`(guint) ((t / (GST_SECOND * 60)) % 60)`. -/
def gstTimeMinutes (t : Nat) : Nat := (t / (GST_SECOND * 60)) % 60

/-- Seconds field of `GST_TIME_ARGS (t)` for a valid `t`:
`(guint) ((t / GST_SECOND) % 60)`. -/
def gstTimeSeconds (t : Nat) : Nat := (t / GST_SECOND) % 60

/-- Nanoseconds field of `GST_TIME_ARGS (t)` for a valid `t`:
`(guint) (t % GST_SECOND)`. -/
def gstTimeNanos (t : Nat) : Nat := t % GST_SECOND

/-- The string printed by `GST_TIME_FORMAT` (`"u:%02u:%02u.%09u"`, used in
the source as `"%" GST_TIME_FORMAT`, hence `%u:%02u:%02u.%09u`) applied to
`GST_TIME_ARGS (t)` for a valid timestamp `t`: unpadded hours, two-digit
zero-padded minutes and seconds, nine-digit zero-padded nanoseconds. -/
def gstTimeFormat (t : Nat) : String :=
  Nat.repr (gstTimeHours t) ++ ":" ++ zeroPad 2 (gstTimeMinutes t) ++ ":" ++
    zeroPad 2 (gstTimeSeconds t) ++ "." ++ zeroPad 9 (gstTimeNanos t)

/-- One full line written by `transform_ip` for a timestamped buffer:
format string `"%" GST_TIME_FORMAT " %s\n"` applied to the timestamp and
the ISO-8601 wall-clock string. -/
def mappingLine (t : Nat) (iso : String) : String :=
  gstTimeFormat t ++ " " ++ iso ++ "\n"

/-- A `GstBuffer` as seen by this element: the `pts` timestamp
(`GST_BUFFER_TIMESTAMP`) and an opaque payload the element never touches. -/
structure GstBuffer (α : Type) where
  pts : Nat
  payload : α
  deriving Repr, DecidableEq

/-- The element instance state: the configured `filename` and the `file`
handle (`none` = `NULL`; `some L` = an open file whose content is the
concatenation of the strings in `L`). -/
structure GstAbsolutetimestamps where
  filename : String
  file : Option (List String)
  deriving Repr, DecidableEq

/-- The error classes this element can emit through `GST_ELEMENT_ERROR`. -/
inductive GstErrorKind where
  | resourceOpenWrite
  | resourceClose
  deriving Repr, DecidableEq

/-- Result of a gboolean-returning hook: the return value, the updated
element state, and the errors emitted during the call. -/
structure BoolResult where
  ret : Bool
  el : GstAbsolutetimestamps
  errors : List GstErrorKind
  deriving Repr, DecidableEq

/-- `GstFlowReturn` restricted to the values relevant here. -/
inductive GstFlowReturn where
  | ok
  | error
  deriving Repr, DecidableEq

/-- Result of `transform_ip`: the flow return, the updated element state,
the (in-place) output buffer, and the errors emitted during the call. -/
structure FlowResult (α : Type) where
  ret : GstFlowReturn
  el : GstAbsolutetimestamps
  buf : GstBuffer α
  errors : List GstErrorKind
  deriving Repr, DecidableEq

/-- `DEFAULT_FILENAME`. -/
def DEFAULT_FILENAME : String := "timestamps.log"

/-- `gst_absolutetimestamps_init`: `filename = g_strdup (DEFAULT_FILENAME)`,
`file = NULL`. -/
def gst_absolutetimestamps_init : GstAbsolutetimestamps :=
  { filename := DEFAULT_FILENAME, file := none }

/-- `gst_absolutetimestamps_set_property` for `PROP_LOCATION`: frees the
old string and stores a copy of the new value. -/
def gst_absolutetimestamps_set_property (el : GstAbsolutetimestamps)
    (location : String) : GstAbsolutetimestamps :=
  { el with filename := location }

/-- `gst_absolutetimestamps_get_property` for `PROP_LOCATION`: returns the
stored filename. -/
def gst_absolutetimestamps_get_property (el : GstAbsolutetimestamps) : String :=
  el.filename

/-- `gst_absolutetimestamps_start`: opens `filename` with `g_fopen (..., "wb")`
(truncating; a successful open yields a fresh empty file).  `openOk` is the
environmental outcome of the open.  On failure (`file == NULL`) it emits a
`RESOURCE, OPEN_WRITE` error and returns `FALSE`; otherwise `TRUE`. -/
def gst_absolutetimestamps_start (el : GstAbsolutetimestamps)
    (openOk : Bool) : BoolResult :=
  let el2 := { el with file := if openOk then some [] else none }
  if el2.file = none then
    { ret := false, el := el2, errors := [GstErrorKind.resourceOpenWrite] }
  else
    { ret := true, el := el2, errors := [] }

/-- `gst_absolutetimestamps_stop`: if a file is held, `fclose` it (emitting a
`RESOURCE, CLOSE` error when `fclose` fails, i.e. `closeOk = false`) and set
the handle to `NULL`; always returns `TRUE`. -/
def gst_absolutetimestamps_stop (el : GstAbsolutetimestamps)
    (closeOk : Bool) : BoolResult :=
  match el.file with
  | some _ =>
      { ret := true,
        el := { el with file := none },
        errors := if closeOk then [] else [GstErrorKind.resourceClose] }
  | none => { ret := true, el := el, errors := [] }

/-- `gst_absolutetimestamps_transform_ip`: reads `GST_BUFFER_TIMESTAMP (buf)`;
if it is not `GST_CLOCK_TIME_NONE`, captures wall-clock time (the resulting
ISO-8601 string is the parameter `iso`) and `g_fprintf`s one mapping line to
the file (`writeOk` is the environmental outcome of the write; its return
value is ignored by the source).  Always returns `GST_FLOW_OK`; the buffer is
untouched. -/
def gst_absolutetimestamps_transform_ip {α : Type} (el : GstAbsolutetimestamps)
    (buf : GstBuffer α) (iso : String) (writeOk : Bool) : FlowResult α :=
  let timestamp := buf.pts
  if timestamp ≠ GST_CLOCK_TIME_NONE then
    { ret := GstFlowReturn.ok,
      el := if writeOk then
              { el with file := el.file.map (fun L => L ++ [mappingLine timestamp iso]) }
            else el,
      buf := buf,
      errors := [] }
  else
    { ret := GstFlowReturn.ok, el := el, buf := buf, errors := [] }

/-- Process a list of data units in arrival order, each with its captured
wall-clock ISO string, all writes succeeding (`writeOk = true`). -/
def processAll (el : GstAbsolutetimestamps)
    (units : List (Nat × String)) : GstAbsolutetimestamps :=
  units.foldl
    (fun e u =>
      (gst_absolutetimestamps_transform_ip e (GstBuffer.mk u.1 ()) u.2 true).el)
    el

/-- Result of a full activate → process-all → deactivate cycle: whether the
activation and deactivation succeeded, the log content at close time (what
remains on disk), and the final element state. -/
structure CycleResult where
  started : Bool
  log : List String
  stopped : Bool
  final : GstAbsolutetimestamps
  deriving Repr, DecidableEq

/-- A full cycle on a fresh element configured with location `fn`: start
(open succeeds), process all units in order (writes succeed), stop (close
succeeds).  The `log` field is the file content just before `fclose`, which
is the content left on disk. -/
def runCycle (fn : String) (units : List (Nat × String)) : CycleResult :=
  let el0 : GstAbsolutetimestamps := { filename := fn, file := none }
  let s := gst_absolutetimestamps_start el0 true
  let el1 := processAll s.el units
  let st := gst_absolutetimestamps_stop el1 true
  { started := s.ret, log := el1.file.getD [], stopped := st.ret, final := st.el }

end AbsoluteTimestamps

namespace AbsoluteTimestamps

theorem zeroPad_length (w n : Nat) (h : (Nat.repr n).length ≤ w) :
    (zeroPad w n).length = w := by
  simp only [zeroPad, String.length_append]
  have h0 : (String.mk (List.replicate (w - (Nat.repr n).length) '0')).length
      = w - (Nat.repr n).length := by
    show (List.replicate (w - (Nat.repr n).length) '0').length = _
    exact List.length_replicate _ _
  rw [h0]
  omega

theorem zeroPad2_minutes_length (t : Nat) : (zeroPad 2 (gstTimeMinutes t)).length = 2 := by
  apply zeroPad_length
  apply Nat.repr_length _ 2 (by norm_num)
  have : gstTimeMinutes t < 60 := Nat.mod_lt _ (by norm_num)
  omega

theorem zeroPad2_seconds_length (t : Nat) : (zeroPad 2 (gstTimeSeconds t)).length = 2 := by
  apply zeroPad_length
  apply Nat.repr_length _ 2 (by norm_num)
  have : gstTimeSeconds t < 60 := Nat.mod_lt _ (by norm_num)
  omega

theorem zeroPad9_nanos_length (t : Nat) : (zeroPad 9 (gstTimeNanos t)).length = 9 := by
  apply zeroPad_length
  apply Nat.repr_length _ 9 (by norm_num)
  have h10 : (10 : Nat) ^ 9 = GST_SECOND := by norm_num [GST_SECOND]
  rw [h10]
  exact Nat.mod_lt _ (by norm_num [GST_SECOND])

theorem processAll_file (units : List (Nat × String)) (fn : String) (L : List String) :
    processAll ⟨fn, some L⟩ units =
      ⟨fn, some (L ++ (units.filter (fun u => u.1 != GST_CLOCK_TIME_NONE)).map
        (fun u => mappingLine u.1 u.2))⟩ := by
  induction units generalizing L with
  | nil => simp [processAll]
  | cons u us ih =>
      by_cases h : u.1 = GST_CLOCK_TIME_NONE
      · simp only [processAll, List.foldl_cons] at *
        rw [show (gst_absolutetimestamps_transform_ip
              (⟨fn, some L⟩ : GstAbsolutetimestamps) (GstBuffer.mk u.1 ()) u.2 true).el
            = ⟨fn, some L⟩ by simp [gst_absolutetimestamps_transform_ip, h]]
        rw [ih]
        simp [h]
      · simp only [processAll, List.foldl_cons] at *
        rw [show (gst_absolutetimestamps_transform_ip
              (⟨fn, some L⟩ : GstAbsolutetimestamps) (GstBuffer.mk u.1 ()) u.2 true).el
            = ⟨fn, some (L ++ [mappingLine u.1 u.2])⟩ by
          simp [gst_absolutetimestamps_transform_ip, h]]
        rw [ih]
        simp [h]

end AbsoluteTimestamps

namespace AbsoluteTimestamps

/-- Claim C1: over a successful activate → process-all → deactivate cycle, the log
contains exactly one line per unit with a set relative timestamp, in arrival
order; units with the unset sentinel contribute no line.  In particular the
number of log lines equals the number of timestamped units. -/
theorem C1_one_line_per_timestamped_unit (fn : String) (units : List (Nat × String)) :
    (runCycle fn units).started = true ∧
    (runCycle fn units).stopped = true ∧
    (runCycle fn units).log =
      (units.filter (fun u => u.1 != GST_CLOCK_TIME_NONE)).map
        (fun u => mappingLine u.1 u.2) ∧
    (runCycle fn units).log.length =
      (units.filter (fun u => u.1 != GST_CLOCK_TIME_NONE)).length := by
  have hs : gst_absolutetimestamps_start ⟨fn, none⟩ true =
      ⟨true, ⟨fn, some []⟩, []⟩ := by
    simp [gst_absolutetimestamps_start]
  refine ⟨?_, ?_, ?_, ?_⟩ <;>
    simp [runCycle, hs, processAll_file, gst_absolutetimestamps_stop]

/-- Claim C2 counterexample: a unit with relative timestamp 1.5 s produces the
relative field `0:00:01.500000000` — the hours are rendered by `%u`, not
zero-padded — so the line differs from the claimed `00:00:01.500000000 ...`. -/
theorem C2_counterexample :
    (gst_absolutetimestamps_transform_ip
        (GstAbsolutetimestamps.mk "out.log" (some []))
        (GstBuffer.mk 1500000000 ()) "2019-06-01T12:00:00Z" true).el.file =
      some ["0:00:01.500000000 2019-06-01T12:00:00Z\n"] ∧
    "0:00:01.500000000 2019-06-01T12:00:00Z\n" ≠
      "00:00:01.500000000 2019-06-01T12:00:00Z\n" :=
  ⟨rfl, by decide⟩

/-- Claim C2 (amended): the relative field is `H:MM:SS.nnnnnnnnn` — hours printed
with `%u` (no zero padding), minutes and seconds zero-padded to two digits,
nanoseconds zero-padded to nine digits; a 1.5 s timestamp yields exactly
`0:00:01.500000000`. -/
theorem C2_relative_field_format {α : Type} (fn : String) (L : List String)
    (buf : GstBuffer α) (iso : String) (h : buf.pts ≠ GST_CLOCK_TIME_NONE) :
    (gst_absolutetimestamps_transform_ip
        (GstAbsolutetimestamps.mk fn (some L)) buf iso true).el.file =
      some (L ++ [Nat.repr (gstTimeHours buf.pts) ++ ":" ++
        zeroPad 2 (gstTimeMinutes buf.pts) ++ ":" ++
        zeroPad 2 (gstTimeSeconds buf.pts) ++ "." ++
        zeroPad 9 (gstTimeNanos buf.pts) ++ " " ++ iso ++ "\n"]) ∧
    (zeroPad 2 (gstTimeMinutes buf.pts)).length = 2 ∧
    (zeroPad 2 (gstTimeSeconds buf.pts)).length = 2 ∧
    (zeroPad 9 (gstTimeNanos buf.pts)).length = 9 ∧
    gstTimeFormat 1500000000 = "0:00:01.500000000" := by
  refine ⟨?_, zeroPad2_minutes_length _, zeroPad2_seconds_length _,
    zeroPad9_nanos_length _, rfl⟩
  simp [gst_absolutetimestamps_transform_ip, h, mappingLine, gstTimeFormat]

theorem C2_relative_field_format_witness :
    (gst_absolutetimestamps_transform_ip
        (GstAbsolutetimestamps.mk "out.log" (some []))
        (GstBuffer.mk 1500000000 ()) "Z" true).el.file =
      some ([] ++ [Nat.repr (gstTimeHours 1500000000) ++ ":" ++
        zeroPad 2 (gstTimeMinutes 1500000000) ++ ":" ++
        zeroPad 2 (gstTimeSeconds 1500000000) ++ "." ++
        zeroPad 9 (gstTimeNanos 1500000000) ++ " " ++ "Z" ++ "\n"]) ∧
    (zeroPad 2 (gstTimeMinutes 1500000000)).length = 2 ∧
    (zeroPad 2 (gstTimeSeconds 1500000000)).length = 2 ∧
    (zeroPad 9 (gstTimeNanos 1500000000)).length = 9 ∧
    gstTimeFormat 1500000000 = "0:00:01.500000000" :=
  C2_relative_field_format "out.log" [] (GstBuffer.mk 1500000000 ()) "Z" (by decide)

/-- Claim C3: for a unit with a set relative timestamp, exactly one line
`<relative> <iso8601>\n` is appended to the open log and the call returns
`GST_FLOW_OK` with the buffer passed through and no error emitted. -/
theorem C3_line_grammar_and_success {α : Type} (fn : String) (L : List String)
    (buf : GstBuffer α) (iso : String) (h : buf.pts ≠ GST_CLOCK_TIME_NONE) :
    gst_absolutetimestamps_transform_ip
        (GstAbsolutetimestamps.mk fn (some L)) buf iso true =
      ⟨GstFlowReturn.ok, ⟨fn, some (L ++ [gstTimeFormat buf.pts ++ " " ++ iso ++ "\n"])⟩,
        buf, []⟩ := by
  simp [gst_absolutetimestamps_transform_ip, h, mappingLine]

theorem C3_line_grammar_and_success_witness :
    gst_absolutetimestamps_transform_ip
        (GstAbsolutetimestamps.mk "out.log" (some []))
        (GstBuffer.mk 0 ()) "2019-06-01T12:00:00Z" true =
      ⟨GstFlowReturn.ok,
        ⟨"out.log", some ([] ++ [gstTimeFormat 0 ++ " " ++ "2019-06-01T12:00:00Z" ++ "\n"])⟩,
        GstBuffer.mk 0 (), []⟩ :=
  C3_line_grammar_and_success "out.log" [] (GstBuffer.mk 0 ()) "2019-06-01T12:00:00Z"
    (by decide)

/-- Claim C4: activation opens the location for writing with truncation: on a
successful open the element holds a fresh empty file and `start` returns
`TRUE` with no error; on a failed open, `start` emits a `RESOURCE,
OPEN_WRITE` error, returns `FALSE`, and no resource is held. -/
theorem C4_start_open (el : GstAbsolutetimestamps) :
    ((gst_absolutetimestamps_start el true).ret = true ∧
     (gst_absolutetimestamps_start el true).el.file = some [] ∧
     (gst_absolutetimestamps_start el true).errors = []) ∧
    ((gst_absolutetimestamps_start el false).ret = false ∧
     (gst_absolutetimestamps_start el false).el.file = none ∧
     (gst_absolutetimestamps_start el false).errors = [GstErrorKind.resourceOpenWrite]) := by
  simp [gst_absolutetimestamps_start]

/-- Claim C5: deactivation always returns `TRUE` and leaves no handle held; when
the held file's close fails, a `RESOURCE, CLOSE` error is emitted but `stop`
still returns `TRUE` with the handle cleared. -/
theorem C5_stop_nonfatal (el : GstAbsolutetimestamps) (closeOk : Bool)
    (fn : String) (L : List String) :
    (gst_absolutetimestamps_stop el closeOk).ret = true ∧
    (gst_absolutetimestamps_stop el closeOk).el.file = none ∧
    (gst_absolutetimestamps_stop ⟨fn, some L⟩ false).ret = true ∧
    (gst_absolutetimestamps_stop ⟨fn, some L⟩ false).el.file = none ∧
    (gst_absolutetimestamps_stop ⟨fn, some L⟩ false).errors =
      [GstErrorKind.resourceClose] := by
  cases h : el.file <;> simp [gst_absolutetimestamps_stop, h]

/-- Claim C6 counterexample: a failed per-unit write (`writeOk = false`) on a
timestamped unit emits no error at all — `transform_ip` ignores the
`g_fprintf` result — contradicting the claim that the failure is reported as
a diagnostic recording error (the call still returns `GST_FLOW_OK`). -/
theorem C6_counterexample :
    (gst_absolutetimestamps_transform_ip
        (GstAbsolutetimestamps.mk "out.log" (some []))
        (GstBuffer.mk 0 ()) "2019-06-01T12:00:00Z" false).errors = [] ∧
    (gst_absolutetimestamps_transform_ip
        (GstAbsolutetimestamps.mk "out.log" (some []))
        (GstBuffer.mk 0 ()) "2019-06-01T12:00:00Z" false).ret = GstFlowReturn.ok :=
  ⟨rfl, rfl⟩

/-- Claim C6 (amended): when a per-unit write fails, no error is reported (the
write's result is ignored), the call still returns `GST_FLOW_OK`, the data
unit is passed through unmodified, and the element state is unchanged — flow
continues. -/
theorem C6_write_failure_nonfatal {α : Type} (el : GstAbsolutetimestamps)
    (buf : GstBuffer α) (iso : String) :
    (gst_absolutetimestamps_transform_ip el buf iso false).ret = GstFlowReturn.ok ∧
    (gst_absolutetimestamps_transform_ip el buf iso false).buf = buf ∧
    (gst_absolutetimestamps_transform_ip el buf iso false).errors = [] ∧
    (gst_absolutetimestamps_transform_ip el buf iso false).el = el := by
  by_cases h : buf.pts = GST_CLOCK_TIME_NONE <;>
    simp [gst_absolutetimestamps_transform_ip, h]

/-- Claim C7: a unit whose timestamp is the unset sentinel is a complete no-op on
the log: the element state, the buffer and the (empty) error list are
returned unchanged with `GST_FLOW_OK`, independent of the wall-clock value
and the write outcome. -/
theorem C7_unset_sentinel_noop {α : Type} (el : GstAbsolutetimestamps)
    (payload : α) (iso : String) (writeOk : Bool) :
    gst_absolutetimestamps_transform_ip el
        (GstBuffer.mk GST_CLOCK_TIME_NONE payload) iso writeOk =
      ⟨GstFlowReturn.ok, el, GstBuffer.mk GST_CLOCK_TIME_NONE payload, []⟩ := by
  simp [gst_absolutetimestamps_transform_ip]

/-- Claim C8: the location property defaults to `"timestamps.log"` at init, and a
set-then-get round trip returns the value just set, in any element state. -/
theorem C8_location_roundtrip (el : GstAbsolutetimestamps) (v : String) :
    gst_absolutetimestamps_get_property gst_absolutetimestamps_init = "timestamps.log" ∧
    gst_absolutetimestamps_get_property (gst_absolutetimestamps_set_property el v) = v := by
  exact ⟨rfl, rfl⟩

/-- Claim C9: `transform_ip` is pure pass-through on the data unit: the buffer is
returned unchanged, the call returns `GST_FLOW_OK`, the configured filename
is untouched, and the only effect on the log is zero or one appended line. -/
theorem C9_passthrough {α : Type} (el : GstAbsolutetimestamps)
    (buf : GstBuffer α) (iso : String) (writeOk : Bool) :
    (gst_absolutetimestamps_transform_ip el buf iso writeOk).buf = buf ∧
    (gst_absolutetimestamps_transform_ip el buf iso writeOk).ret = GstFlowReturn.ok ∧
    (gst_absolutetimestamps_transform_ip el buf iso writeOk).el.filename = el.filename ∧
    ((gst_absolutetimestamps_transform_ip el buf iso writeOk).el.file = el.file ∨
     (gst_absolutetimestamps_transform_ip el buf iso writeOk).el.file =
       el.file.map (fun L => L ++ [mappingLine buf.pts iso])) := by
  by_cases h : buf.pts = GST_CLOCK_TIME_NONE <;> cases writeOk <;>
    simp [gst_absolutetimestamps_transform_ip, h]

/-- Claim C10: deactivation with no held handle is a successful no-op leaving the
state unchanged, and after any deactivation the handle is cleared, so a
second consecutive deactivation is a successful no-op as well. -/
theorem C10_stop_idempotent (fn : String) (closeOk : Bool)
    (el : GstAbsolutetimestamps) (c1 c2 : Bool) :
    gst_absolutetimestamps_stop ⟨fn, none⟩ closeOk = ⟨true, ⟨fn, none⟩, []⟩ ∧
    (gst_absolutetimestamps_stop el c1).el.file = none ∧
    gst_absolutetimestamps_stop (gst_absolutetimestamps_stop el c1).el c2 =
      ⟨true, (gst_absolutetimestamps_stop el c1).el, []⟩ := by
  cases h : el.file <;> simp [gst_absolutetimestamps_stop, h]

end AbsoluteTimestamps
